import Mathlib

/-!
Verification of the NZ bank-account-number canonicalization engine and the
prefix-validated resource identifiers of the `akahu-client` repository.

Strings of the Rust source are modelled as `List Char`; machine integer
parsing (`str::parse::<u8>`) is modelled over `Nat` with an explicit 255
bound.  Fallible Rust functions returning `Result` are modelled with
`Except`; `expect`-guarded slicing is modelled with `Option`, where `none`
marks the panic branch.
-/

set_option maxRecDepth 4000

/-- Rust `char::is_ascii_digit`. -/
def isAsciiDigit (c : Char) : Bool :=
  48 ≤ c.toNat && c.toNat ≤ 57

/-- `BankPrefix` from `src/bank_account_number.rs`: one variant per known
2-digit NZ bank code (the `repr(u8)` discriminants are given by
`BankPrefix.code`). -/
inductive BankPrefix where
  | Anz
  | Bnz
  | Westpac
  | AnzWise
  | ChinaConstruction
  | AnzNational
  | Nab
  | Icbc
  | AnzPostBank
  | Asb
  | WestpacTrust
  | WestpacOtago
  | Tsb
  | WestpacSouthland
  | WestpacBop
  | WestpacCanterbury
  | WestpacWaikato
  | WestpacWellington
  | WestpacWestland
  | WestpacSouthCant
  | WestpacAuckland
  | AsbPartner
  | AnzPartner
  | Hsbc
  | Citibank
  | Kiwibank
  | BankOfChina
deriving DecidableEq, Fintype

/-- The `repr(u8)` numeric discriminant of each variant. -/
def BankPrefix.code : BankPrefix → Nat
  | .Anz => 1
  | .Bnz => 2
  | .Westpac => 3
  | .AnzWise => 4
  | .ChinaConstruction => 5
  | .AnzNational => 6
  | .Nab => 8
  | .Icbc => 10
  | .AnzPostBank => 11
  | .Asb => 12
  | .WestpacTrust => 13
  | .WestpacOtago => 14
  | .Tsb => 15
  | .WestpacSouthland => 16
  | .WestpacBop => 17
  | .WestpacCanterbury => 18
  | .WestpacWaikato => 19
  | .WestpacWellington => 20
  | .WestpacWestland => 21
  | .WestpacSouthCant => 22
  | .WestpacAuckland => 23
  | .AsbPartner => 24
  | .AnzPartner => 25
  | .Hsbc => 30
  | .Citibank => 31
  | .Kiwibank => 38
  | .BankOfChina => 88

/-- `BankPrefix::as_str`. -/
def BankPrefix.asStr : BankPrefix → List Char
  | .Anz => "01".toList
  | .Bnz => "02".toList
  | .Westpac => "03".toList
  | .AnzWise => "04".toList
  | .ChinaConstruction => "05".toList
  | .AnzNational => "06".toList
  | .Nab => "08".toList
  | .Icbc => "10".toList
  | .AnzPostBank => "11".toList
  | .Asb => "12".toList
  | .WestpacTrust => "13".toList
  | .WestpacOtago => "14".toList
  | .Tsb => "15".toList
  | .WestpacSouthland => "16".toList
  | .WestpacBop => "17".toList
  | .WestpacCanterbury => "18".toList
  | .WestpacWaikato => "19".toList
  | .WestpacWellington => "20".toList
  | .WestpacWestland => "21".toList
  | .WestpacSouthCant => "22".toList
  | .WestpacAuckland => "23".toList
  | .AsbPartner => "24".toList
  | .AnzPartner => "25".toList
  | .Hsbc => "30".toList
  | .Citibank => "31".toList
  | .Kiwibank => "38".toList
  | .BankOfChina => "88".toList

/-- `BankPrefix::bank_name`. -/
def BankPrefix.bankName : BankPrefix → List Char
  | .Anz | .AnzNational | .AnzPostBank | .AnzWise | .AnzPartner => "ANZ".toList
  | .Bnz | .Nab => "Bank of New Zealand".toList
  | .Westpac | .WestpacTrust | .WestpacOtago | .WestpacSouthland | .WestpacBop
  | .WestpacCanterbury | .WestpacWaikato | .WestpacWellington | .WestpacWestland
  | .WestpacSouthCant | .WestpacAuckland => "Westpac".toList
  | .Asb | .AsbPartner => "ASB".toList
  | .Kiwibank => "Kiwibank".toList
  | .Tsb => "TSB".toList
  | .ChinaConstruction => "China Construction Bank".toList
  | .Icbc => "ICBC".toList
  | .Hsbc => "HSBC".toList
  | .Citibank => "Citibank".toList
  | .BankOfChina => "Bank of China".toList

/-- `impl TryFrom<u8> for BankPrefix`.  The `u8` argument is a `Nat`; every
call site guards it to at most 255. -/
def BankPrefix.tryFrom (value : Nat) : Option BankPrefix :=
  match value with
  | 1 => some .Anz
  | 2 => some .Bnz
  | 3 => some .Westpac
  | 4 => some .AnzWise
  | 5 => some .ChinaConstruction
  | 6 => some .AnzNational
  | 8 => some .Nab
  | 10 => some .Icbc
  | 11 => some .AnzPostBank
  | 12 => some .Asb
  | 13 => some .WestpacTrust
  | 14 => some .WestpacOtago
  | 15 => some .Tsb
  | 16 => some .WestpacSouthland
  | 17 => some .WestpacBop
  | 18 => some .WestpacCanterbury
  | 19 => some .WestpacWaikato
  | 20 => some .WestpacWellington
  | 21 => some .WestpacWestland
  | 22 => some .WestpacSouthCant
  | 23 => some .WestpacAuckland
  | 24 => some .AsbPartner
  | 25 => some .AnzPartner
  | 30 => some .Hsbc
  | 31 => some .Citibank
  | 38 => some .Kiwibank
  | 88 => some .BankOfChina
  | _ => none

/-- Rust `str::parse::<u8>`: an optional leading `+`, then one or more
ASCII digits, value at most 255.  (Overflow checking against the final
value is equivalent to Rust's per-step check because `Nat` never wraps.) -/
def parseU8 (s : List Char) : Option Nat :=
  let digits := match s with
    | '+' :: rest => rest
    | _ => s
  if digits.isEmpty then none
  else if digits.all isAsciiDigit then
    let v := digits.foldl (fun acc c => acc * 10 + (c.toNat - 48)) 0
    if v ≤ 255 then some v else none
  else none

/-- `impl FromStr for BankPrefix`: strip leading zeros, refuse the empty
remainder, parse as `u8`, then look the value up. -/
def BankPrefix.fromStr (s : List Char) : Option BankPrefix :=
  let numericPart := s.dropWhile (fun c => c = '0')
  if numericPart.isEmpty then none
  else match parseU8 numericPart with
    | none => none
    | some val => BankPrefix.tryFrom val

/-- The canonical 2-digit zero-padded decimal rendering of a code below
100, for comparison with `asStr`. -/
def zeroPad2 (n : Nat) : List Char :=
  [Char.ofNat (48 + n / 10), Char.ofNat (48 + n % 10)]

instance {ε α : Type} [DecidableEq ε] [DecidableEq α] :
    DecidableEq (Except ε α) := fun x y =>
  match x, y with
  | .ok a, .ok b =>
    if h : a = b then isTrue (by rw [h]) else isFalse (by simp [h])
  | .error e, .error f =>
    if h : e = f then isTrue (by rw [h]) else isFalse (by simp [h])
  | .ok _, .error _ => isFalse (by simp)
  | .error _, .ok _ => isFalse (by simp)

/-- `InvalidBankAccountError(String)`: carries the offending input. -/
structure InvalidBankAccountError where
  original : List Char
deriving DecidableEq

/-- `BankAccountNumber(String)`: the stored (intended canonical) string. -/
structure BankAccountNumber where
  data : List Char
deriving DecidableEq

/-- Rust `str::get(a..b)`: `some` slice when the range is within bounds
(all strings here are ASCII, so char boundaries never fail), else `none`. -/
def strGet (s : List Char) (a b : Nat) : Option (List Char) :=
  if a ≤ b && b ≤ s.length then some ((s.drop a).take (b - a)) else none

/-- Rust `str::split(sep).collect::<Vec<_>>()`. -/
def splitChar (sep : Char) : List Char → List (List Char)
  | [] => [[]]
  | c :: rest =>
    if c = sep then [] :: splitChar sep rest
    else match splitChar sep rest with
      | [] => [[c]]
      | h :: t => (c :: h) :: t

/-- The `validate_parts` closure inside `BankAccountNumber::new`,
mirroring its check order: segment count, bank code resolution, segment
lengths 4/7/3, all-digit check over all four parts. -/
def validateParts (parts : List (List Char)) : Bool :=
  match parts with
  | [bankCode, branch, account, sfx] =>
    (BankPrefix.fromStr bankCode).isSome &&
    (branch.length == 4 && account.length == 7 && sfx.length == 3) &&
    [bankCode, branch, account, sfx].all (fun p => p.all isAsciiDigit)
  | _ => false

/-- `BankAccountNumber::new`.  Hyphenated inputs are validated by
`validateParts` on the `split('-')` segments and stored verbatim;
hyphen-free inputs must be 16 ASCII digits, are sliced at fixed offsets
and stored re-joined with hyphens. -/
def BankAccountNumber.new (s : List Char) :
    Except InvalidBankAccountError BankAccountNumber :=
  if s.contains '-' then
    if validateParts (splitChar '-' s) then Except.ok ⟨s⟩
    else Except.error ⟨s⟩
  else if s.length == 16 && s.all isAsciiDigit then
    match strGet s 0 2, strGet s 2 6, strGet s 6 13, strGet s 13 16 with
    | some bankCode, some branch, some account, some sfx =>
      if validateParts [bankCode, branch, account, sfx] then
        Except.ok ⟨bankCode ++ '-' :: (branch ++ '-' :: (account ++ '-' :: sfx))⟩
      else Except.error ⟨s⟩
    | _, _, _, _ => Except.error ⟨s⟩
  else Except.error ⟨s⟩

/-- `BankAccountNumber::bank_code`: `self.0.get(0..2).expect(..)`;
`none` is the panic branch. -/
def BankAccountNumber.bankCode (v : BankAccountNumber) : Option (List Char) :=
  strGet v.data 0 2

/-- `BankAccountNumber::branch_code`: `self.0.get(3..7).expect(..)`. -/
def BankAccountNumber.branchCode (v : BankAccountNumber) : Option (List Char) :=
  strGet v.data 3 7

/-- `BankAccountNumber::account_number`: `self.0.get(8..15).expect(..)`. -/
def BankAccountNumber.accountNumber (v : BankAccountNumber) : Option (List Char) :=
  strGet v.data 8 15

/-- `BankAccountNumber::suffix`: `self.0.get(16..19).expect(..)`. -/
def BankAccountNumber.sfx (v : BankAccountNumber) : Option (List Char) :=
  strGet v.data 16 19

/-- `BankAccountNumber::prefix`:
`BankPrefix::from_str(self.bank_code()).expect(..)`; `none` marks either
panic (the `bank_code` one or the `from_str` one). -/
def BankAccountNumber.pfx (v : BankAccountNumber) : Option BankPrefix :=
  match v.bankCode with
  | none => none
  | some bc => BankPrefix.fromStr bc

/-- `BankAccountNumber::as_str` / `Display` / `to_string`: the stored
string. -/
def BankAccountNumber.asStr (v : BankAccountNumber) : List Char :=
  v.data

example : BankAccountNumber.new "01-2345-6789012-000".toList =
    Except.ok ⟨"01-2345-6789012-000".toList⟩ := by decide

example : BankAccountNumber.new "3890000000000123".toList =
    Except.ok ⟨"38-9000-0000000-123".toList⟩ := by decide

example : BankAccountNumber.new "1-2345-6789012-000".toList =
    Except.ok ⟨"1-2345-6789012-000".toList⟩ := by decide

example : (BankAccountNumber.new "99-2345-6789012-000".toList).isOk = false := by decide

/-- The nine identifier kinds produced by the `newtype_id!` macro in
`src/types.rs`. -/
inductive IdKind where
  | accountId
  | transactionId
  | userId
  | transferId
  | paymentId
  | connectionId
  | categoryId
  | merchantId
  | authorizationId
deriving DecidableEq, Fintype

/-- `stringify!($name)`: the type name reported in errors. -/
def IdKind.typeName : IdKind → List Char
  | .accountId => "AccountId".toList
  | .transactionId => "TransactionId".toList
  | .userId => "UserId".toList
  | .transferId => "TransferId".toList
  | .paymentId => "PaymentId".toList
  | .connectionId => "ConnectionId".toList
  | .categoryId => "CategoryId".toList
  | .merchantId => "MerchantId".toList
  | .authorizationId => "AuthorizationId".toList

/-- The per-kind `PREFIX` constant passed to `newtype_id!`. -/
def IdKind.pre : IdKind → List Char
  | .accountId => "acc_".toList
  | .transactionId => "trans_".toList
  | .userId => "user_".toList
  | .transferId => "transfer_".toList
  | .paymentId => "payment_".toList
  | .connectionId => "conn_".toList
  | .categoryId => "cat_".toList
  | .merchantId => "_merchant".toList
  | .authorizationId => "auth_".toList

/-- `InvalidIdError { type_name, expected_prefix, actual_value }`. -/
structure InvalidIdError where
  typeName : List Char
  expectedPre : List Char
  actualValue : List Char
deriving DecidableEq

/-- A value of one of the `newtype_id!` types: its kind is the Rust type,
its data the wrapped `String`. -/
structure ValidatedId where
  kind : IdKind
  data : List Char
deriving DecidableEq

/-- `$name::new`: validate `starts_with(PREFIX)`, or return an
`InvalidIdError` carrying the kind name, expected prefix and input. -/
def idNew (k : IdKind) (s : List Char) : Except InvalidIdError ValidatedId :=
  if k.pre.isPrefixOf s then Except.ok ⟨k, s⟩
  else Except.error ⟨k.typeName, k.pre, s⟩

/-- `$name::new_unchecked`: wrap without validation. -/
def idNewUnchecked (k : IdKind) (s : List Char) : ValidatedId :=
  ⟨k, s⟩

/-- `impl Deserialize for $name`: deserialize the string, then
`new_unchecked`. -/
def idDeserialize (k : IdKind) (s : List Char) : ValidatedId :=
  idNewUnchecked k s

/-- `$name::as_str`. -/
def ValidatedId.asStr (v : ValidatedId) : List Char :=
  v.data

example : (idNew .accountId "acc_123456".toList).isOk = true := by decide
example : (idNew .accountId "trans_123456".toList).isOk = false := by decide
example : (idNew .merchantId "_merchant123".toList).isOk = true := by decide
example : (idNew .merchantId "merchant_123".toList).isOk = false := by decide

/-! ### Helper lemmas -/

lemma all_take_of_all (p : Char → Bool) (s : List Char) (n : Nat)
    (h : s.all p = true) : (s.take n).all p = true := by
  rw [List.all_eq_true] at h ⊢
  exact fun x hx => h x (List.mem_of_mem_take hx)

lemma all_drop_of_all (p : Char → Bool) (s : List Char) (n : Nat)
    (h : s.all p = true) : (s.drop n).all p = true := by
  rw [List.all_eq_true] at h ⊢
  exact fun x hx => h x (List.mem_of_mem_drop hx)

lemma hyphen_not_digit : isAsciiDigit '-' = false := by decide

lemma contains_hyphen_eq_false_of_digits (s : List Char)
    (h : s.all isAsciiDigit = true) : s.contains '-' = false := by
  have hm : '-' ∉ s := by
    intro hmem
    rw [List.all_eq_true] at h
    exact absurd (h _ hmem) (by decide)
  simp [hm]

lemma splitChar_of_no_sep (sep : Char) (xs : List Char)
    (h : xs.contains sep = false) : splitChar sep xs = [xs] := by
  induction xs with
  | nil => rfl
  | cons c t ih =>
    rw [List.contains_cons, Bool.or_eq_false_iff] at h
    have hc : ¬ c = sep := by
      intro he
      rw [he] at h
      simp at h
    rw [splitChar, if_neg hc, ih h.2]

lemma splitChar_append_sep (sep : Char) (xs ys : List Char)
    (h : xs.contains sep = false) :
    splitChar sep (xs ++ sep :: ys) = xs :: splitChar sep ys := by
  induction xs with
  | nil => simp [splitChar]
  | cons c t ih =>
    rw [List.contains_cons, Bool.or_eq_false_iff] at h
    have hc : ¬ c = sep := by
      intro he
      rw [he] at h
      simp at h
    rw [List.cons_append, splitChar, if_neg hc, ih h.2]

/-- On a hyphen-free input of 16 ASCII digits, `new` reduces to the
bank-code registry check and the fixed-offset re-join. -/
lemma new_noHyphen_digits16 (s : List Char) (h : s.contains '-' = false)
    (h16 : s.length = 16) (hdig : s.all isAsciiDigit = true) :
    BankAccountNumber.new s =
      if (BankPrefix.fromStr (s.take 2)).isSome = true then
        Except.ok ⟨s.take 2 ++ '-' :: ((s.drop 2).take 4 ++ '-' ::
          ((s.drop 6).take 7 ++ '-' :: (s.drop 13).take 3))⟩
      else Except.error ⟨s⟩ := by
  have hb : (s.length == 16 && s.all isAsciiDigit) = true := by
    simp [h16, hdig]
  have hg1 : strGet s 0 2 = some (s.take 2) := by
    simp [strGet, h16]
  have hg2 : strGet s 2 6 = some ((s.drop 2).take 4) := by
    simp [strGet, h16]
  have hg3 : strGet s 6 13 = some ((s.drop 6).take 7) := by
    simp [strGet, h16]
  have hg4 : strGet s 13 16 = some ((s.drop 13).take 3) := by
    simp [strGet, h16]
  have hv : validateParts [s.take 2, (s.drop 2).take 4, (s.drop 6).take 7,
      (s.drop 13).take 3] = (BankPrefix.fromStr (s.take 2)).isSome := by
    simp [validateParts, List.length_take, List.length_drop, h16,
      all_take_of_all _ _ _ hdig,
      all_take_of_all _ _ _ (all_drop_of_all _ _ _ hdig)]
  unfold BankAccountNumber.new
  rw [hg1, hg2, hg3, hg4]
  simp only [h, Bool.false_eq_true, if_false, hb, if_true, hv]

/-- On a hyphen-free input that is not 16 ASCII digits, `new` rejects. -/
lemma new_noHyphen_reject (s : List Char) (h : s.contains '-' = false)
    (hne : ¬ (s.length = 16 ∧ s.all isAsciiDigit = true)) :
    BankAccountNumber.new s = Except.error ⟨s⟩ := by
  have hb : (s.length == 16 && s.all isAsciiDigit) = false := by
    rcases Decidable.not_and_iff_or_not.mp hne with h1 | h2
    · simp [h1]
    · simp [h2]
  unfold BankAccountNumber.new
  simp only [h, Bool.false_eq_true, if_false, hb]

/-! ### Claim theorems -/

/-- C6: `BankPrefix::from_str` strips leading zeros before the numeric
lookup, so `"01"` and `"1"` both resolve to the ANZ entry, while an input
that is empty after stripping — `""` or `"00"` — is an error, not
code 0. -/
theorem c6_fromStr_strips_leading_zeros :
    (∀ s : List Char, BankPrefix.fromStr ('0' :: s) = BankPrefix.fromStr s) ∧
    BankPrefix.fromStr "01".toList = some BankPrefix.Anz ∧
    BankPrefix.fromStr "1".toList = some BankPrefix.Anz ∧
    BankPrefix.fromStr "".toList = none ∧
    BankPrefix.fromStr "00".toList = none := by
  refine ⟨fun s => ?_, by decide, by decide, by decide, by decide⟩
  simp [BankPrefix.fromStr, List.dropWhile_cons]

/-- C7: the registry is a closed enumeration of exactly 27 entries;
`try_from(v)` succeeds exactly for the 27 listed codes; each variant's
`as_str` is the zero-padded 2-digit rendering of its discriminant and
round-trips through `from_str`; codes 1, 4, 6, 11 and 25 all carry the
bank name "ANZ". -/
theorem c7_registry_closed_and_roundtrips :
    Fintype.card BankPrefix = 27 ∧
    (∀ n : Fin 256, (BankPrefix.tryFrom n.val).isSome =
      [1, 2, 3, 4, 5, 6, 8, 10, 11, 12, 13, 14, 15, 16, 17, 18, 19, 20, 21,
        22, 23, 24, 25, 30, 31, 38, 88].contains n.val) ∧
    (∀ p : BankPrefix, p.asStr = zeroPad2 p.code) ∧
    (∀ p : BankPrefix, BankPrefix.fromStr p.asStr = some p) ∧
    ((BankPrefix.tryFrom 1).map BankPrefix.bankName = some "ANZ".toList ∧
      (BankPrefix.tryFrom 4).map BankPrefix.bankName = some "ANZ".toList ∧
      (BankPrefix.tryFrom 6).map BankPrefix.bankName = some "ANZ".toList ∧
      (BankPrefix.tryFrom 11).map BankPrefix.bankName = some "ANZ".toList ∧
      (BankPrefix.tryFrom 25).map BankPrefix.bankName = some "ANZ".toList) := by
  refine ⟨by decide, by decide, by decide, by decide, by decide⟩

/-- C4: a hyphen-free input is accepted iff it is exactly 16 ASCII digits
whose first two digits resolve in the registry; on success the input is
sliced at offsets 0–2, 2–6, 6–13, 13–16 and stored joined with hyphens;
digit strings of any other length (15, 17, …) are rejected; and
`"3890000000000123"` canonicalizes to `"38-9000-0000000-123"` with the
Kiwibank identity and components `"9000"` / `"0000000"` / `"123"`. -/
theorem c4_contiguous_sixteen_digit_path :
    (∀ s : List Char, s.contains '-' = false →
      ((BankAccountNumber.new s).isOk = true ↔
        (s.length = 16 ∧ s.all isAsciiDigit = true ∧
          (BankPrefix.fromStr (s.take 2)).isSome = true))) ∧
    (∀ s : List Char, s.contains '-' = false → s.length = 16 →
      s.all isAsciiDigit = true →
      (BankPrefix.fromStr (s.take 2)).isSome = true →
      BankAccountNumber.new s = Except.ok ⟨s.take 2 ++ '-' ::
        ((s.drop 2).take 4 ++ '-' :: ((s.drop 6).take 7 ++ '-' ::
          (s.drop 13).take 3))⟩) ∧
    (∀ s : List Char, s.all isAsciiDigit = true → s.length ≠ 16 →
      (BankAccountNumber.new s).isOk = false) ∧
    (BankAccountNumber.new "3890000000000123".toList =
      Except.ok ⟨"38-9000-0000000-123".toList⟩ ∧
      (BankAccountNumber.mk "38-9000-0000000-123".toList).pfx =
        some BankPrefix.Kiwibank ∧
      (BankAccountNumber.mk "38-9000-0000000-123".toList).branchCode =
        some "9000".toList ∧
      (BankAccountNumber.mk "38-9000-0000000-123".toList).accountNumber =
        some "0000000".toList ∧
      (BankAccountNumber.mk "38-9000-0000000-123".toList).sfx =
        some "123".toList) := by
  refine ⟨fun s h => ?_, fun s h h16 hdig hp => ?_, fun s hdig hne => ?_,
    by decide⟩
  · constructor
    · intro hok
      by_cases hc : s.length = 16 ∧ s.all isAsciiDigit = true
      · rcases hc with ⟨h16, hdig⟩
        rw [new_noHyphen_digits16 s h h16 hdig] at hok
        by_cases hp : (BankPrefix.fromStr (s.take 2)).isSome = true
        · exact ⟨h16, hdig, hp⟩
        · rw [if_neg hp] at hok
          simp [Except.isOk, Except.toBool] at hok
      · rw [new_noHyphen_reject s h hc] at hok
        simp [Except.isOk, Except.toBool] at hok
    · rintro ⟨h16, hdig, hp⟩
      rw [new_noHyphen_digits16 s h h16 hdig, if_pos hp]
      rfl
  · rw [new_noHyphen_digits16 s h h16 hdig, if_pos hp]
  · rw [new_noHyphen_reject s (contains_hyphen_eq_false_of_digits s hdig)
      (fun hc => hne hc.1)]
    rfl

/-- Witness for C4: a fresh 16-digit ANZ number canonicalizes through the
fixed offsets, and a 15-digit string is rejected. -/
theorem c4_contiguous_sixteen_digit_path_witness :
    BankAccountNumber.new "0123456789012345".toList =
      Except.ok ⟨"01-2345-6789012-345".toList⟩ ∧
    (BankAccountNumber.new "123456789012345".toList).isOk = false := by
  constructor
  · have h := c4_contiguous_sixteen_digit_path.2.1 "0123456789012345".toList
      (by decide) (by decide) (by decide) (by decide)
    rw [h]
    decide
  · exact c4_contiguous_sixteen_digit_path.2.2.1 "123456789012345".toList
      (by decide) (by decide)

/-- C5: for any bank code B (2 digits, resolving), branch C (4 digits),
account N (7 digits) and suffix S (3 digits), parsing the contiguous
concatenation and parsing the hyphenated form both succeed and produce the
same `BankAccountNumber` value. -/
theorem c5_contiguous_hyphenated_equivalence :
    ∀ B C N S : List Char,
      B.length = 2 → C.length = 4 → N.length = 7 → S.length = 3 →
      B.all isAsciiDigit = true → C.all isAsciiDigit = true →
      N.all isAsciiDigit = true → S.all isAsciiDigit = true →
      (BankPrefix.fromStr B).isSome = true →
      (BankAccountNumber.new (B ++ (C ++ (N ++ S))) =
        Except.ok ⟨B ++ '-' :: (C ++ '-' :: (N ++ '-' :: S))⟩ ∧
       BankAccountNumber.new (B ++ '-' :: (C ++ '-' :: (N ++ '-' :: S))) =
        Except.ok ⟨B ++ '-' :: (C ++ '-' :: (N ++ '-' :: S))⟩) := by
  intro B C N S hB hC hN hS dB dC dN dS hp
  constructor
  · have hall : (B ++ (C ++ (N ++ S))).all isAsciiDigit = true := by
      simp [List.all_append, dB, dC, dN, dS]
    have hlen : (B ++ (C ++ (N ++ S))).length = 16 := by
      simp [List.length_append, hB, hC, hN, hS]
    have e1 : (B ++ (C ++ (N ++ S))).take 2 = B := List.take_left' hB
    have e2 : ((B ++ (C ++ (N ++ S))).drop 2).take 4 = C := by
      rw [List.drop_left' hB]
      exact List.take_left' hC
    have e3 : ((B ++ (C ++ (N ++ S))).drop 6).take 7 = N := by
      have hr : B ++ (C ++ (N ++ S)) = (B ++ C) ++ (N ++ S) := by
        rw [List.append_assoc]
      rw [hr, List.drop_left' (by simp [hB, hC])]
      exact List.take_left' hN
    have e4 : ((B ++ (C ++ (N ++ S))).drop 13).take 3 = S := by
      have hr : B ++ (C ++ (N ++ S)) = ((B ++ C) ++ N) ++ S := by
        simp [List.append_assoc]
      rw [hr, List.drop_left' (by simp [hB, hC, hN])]
      rw [← hS, List.take_length]
    rw [new_noHyphen_digits16 _ (contains_hyphen_eq_false_of_digits _ hall)
      hlen hall, e1, e2, e3, e4, if_pos hp]
  · have hc2 : (B ++ '-' :: (C ++ '-' :: (N ++ '-' :: S))).contains '-'
        = true := by
      simp
    have hsp : splitChar '-' (B ++ '-' :: (C ++ '-' :: (N ++ '-' :: S))) =
        [B, C, N, S] := by
      rw [splitChar_append_sep '-' B _ (contains_hyphen_eq_false_of_digits B dB),
        splitChar_append_sep '-' C _ (contains_hyphen_eq_false_of_digits C dC),
        splitChar_append_sep '-' N _ (contains_hyphen_eq_false_of_digits N dN),
        splitChar_of_no_sep '-' S (contains_hyphen_eq_false_of_digits S dS)]
    have hv : validateParts [B, C, N, S] = true := by
      simp [validateParts, hp, hC, hN, hS, dB, dC, dN, dS]
    unfold BankAccountNumber.new
    rw [hsp]
    simp only [hc2, if_true, hv]

/-- Witness for C5: the ASB example `12-3456-7890123-001` parses equally
from its contiguous and hyphenated encodings. -/
theorem c5_contiguous_hyphenated_equivalence_witness :
    BankAccountNumber.new "1234567890123001".toList =
      Except.ok ⟨"12-3456-7890123-001".toList⟩ ∧
    BankAccountNumber.new "12-3456-7890123-001".toList =
      Except.ok ⟨"12-3456-7890123-001".toList⟩ := by
  have h := c5_contiguous_hyphenated_equivalence "12".toList "3456".toList
    "7890123".toList "001".toList (by decide) (by decide) (by decide)
    (by decide) (by decide) (by decide) (by decide) (by decide) (by decide)
  constructor
  · have h1 := h.1
    rw [show ("12".toList ++ ("3456".toList ++ ("7890123".toList ++
      "001".toList))) = "1234567890123001".toList from by decide] at h1
    rw [h1]
    decide
  · have h2 := h.2
    rw [show ("12".toList ++ '-' :: ("3456".toList ++ '-' ::
      ("7890123".toList ++ '-' :: "001".toList))) =
      "12-3456-7890123-001".toList from by decide] at h2
    rw [h2]

/-- C1 (code bug): `new` accepts `"001-2345-6789012-000"` and stores it
verbatim — a 20-byte string — although the claim (and the type's own
documentation) promise the stored string is always the 19-byte canonical
`BB-CCCC-NNNNNNN-SSS` form. -/
theorem c1_stored_string_not_canonical_bug :
    BankAccountNumber.new "001-2345-6789012-000".toList =
      Except.ok ⟨"001-2345-6789012-000".toList⟩ ∧
    (BankAccountNumber.mk "001-2345-6789012-000".toList).asStr.length = 20 := by
  exact ⟨by decide, by decide⟩

/-- C2 (code bug): the hyphenated path never checks the bank-code
segment's length, so `"1-2345-6789012-000"` — whose segments have widths
1, 4, 7, 3 — is accepted, although the claim lists it as a wrong-field-width
rejection. -/
theorem c2_bank_segment_width_unchecked_bug :
    BankAccountNumber.new "1-2345-6789012-000".toList =
      Except.ok ⟨"1-2345-6789012-000".toList⟩ ∧
    (splitChar '-' "1-2345-6789012-000".toList).map List.length =
      [1, 4, 7, 3] := by
  exact ⟨by decide, by decide⟩

/-- C3 (code bug): on the value `new` produces from
`"1-2345-6789012-000"`, the `suffix()` accessor's `get(16..19)` is out of
range (its `expect` panics) and `prefix()` panics because `bank_code()`
returns `"1-"`, so the accessors are not panic-free on
constructor-produced values and rejoining cannot equal `as_str()`. -/
theorem c3_accessors_reachable_panic_bug :
    BankAccountNumber.new "1-2345-6789012-000".toList =
      Except.ok ⟨"1-2345-6789012-000".toList⟩ ∧
    (BankAccountNumber.mk "1-2345-6789012-000".toList).sfx = none ∧
    (BankAccountNumber.mk "1-2345-6789012-000".toList).pfx = none ∧
    (BankAccountNumber.mk "1-2345-6789012-000".toList).bankCode =
      some "1-".toList := by
  exact ⟨by decide, by decide, by decide, by decide⟩

lemma idNew_isOk_iff (k : IdKind) (s : List Char) :
    (idNew k s).isOk = true ↔ k.pre.isPrefixOf s = true := by
  by_cases h : k.pre.isPrefixOf s = true <;>
    simp [idNew, h, Except.isOk, Except.toBool]

/-- C8: for every identifier kind, the validating constructor succeeds
exactly on inputs starting with the kind's required marker; on failure it
returns an `InvalidIdError` carrying the kind's type name, the expected
marker, and the input verbatim; the empty string and every strict partial
marker are rejected. -/
theorem c8_id_prefix_validation :
    (∀ (k : IdKind) (s : List Char),
      (idNew k s).isOk = true ↔ k.pre.isPrefixOf s = true) ∧
    (∀ (k : IdKind) (s : List Char), k.pre.isPrefixOf s = false →
      idNew k s = Except.error ⟨k.typeName, k.pre, s⟩) ∧
    (∀ k : IdKind, (idNew k []).isOk = false) ∧
    (∀ (k : IdKind) (s : List Char), s <+: k.pre → s ≠ k.pre →
      (idNew k s).isOk = false) := by
  refine ⟨idNew_isOk_iff, fun k s h => ?_, by decide, fun k s h1 h2 => ?_⟩
  · simp [idNew, h]
  · have hnp : ¬ k.pre.isPrefixOf s = true := by
      intro hpre
      rw [List.isPrefixOf_iff_prefix] at hpre
      exact h2 (h1.eq_of_length (le_antisymm h1.length_le hpre.length_le))
    simp [idNew, hnp, Except.isOk, Except.toBool]

/-- Witness for C8: `"123"` is rejected as an `AccountId` with the full
diagnostic error, and both the strict partial marker `"acc"` and the
empty string are rejected. -/
theorem c8_id_prefix_validation_witness :
    idNew .accountId "123".toList =
      Except.error ⟨"AccountId".toList, "acc_".toList, "123".toList⟩ ∧
    (idNew .accountId "acc".toList).isOk = false ∧
    (idNew .accountId []).isOk = false ∧
    (idNew .accountId "acc_123456".toList).isOk = true := by
  refine ⟨?_, ?_, ?_, ?_⟩
  · exact c8_id_prefix_validation.2.1 .accountId "123".toList (by decide)
  · exact c8_id_prefix_validation.2.2.2 .accountId "acc".toList (by decide)
      (by decide)
  · exact c8_id_prefix_validation.2.2.1 .accountId
  · exact (c8_id_prefix_validation.1 .accountId "acc_123456".toList).mpr
      (by decide)

/-- C9: `new_unchecked` is total for every kind and input — even inputs
lacking the kind's marker — returns a value whose `as_str` is the input
unchanged, is a distinct entry point from the validating constructor, and
is the path `Deserialize` uses. -/
theorem c9_new_unchecked_total_trusted_path :
    (∀ (k : IdKind) (s : List Char), (idNewUnchecked k s).asStr = s) ∧
    (∀ (k : IdKind) (s : List Char), idDeserialize k s = idNewUnchecked k s) ∧
    (∀ k : IdKind, (idNewUnchecked k "123".toList).asStr = "123".toList ∧
      (idNew k "123".toList).isOk = false) := by
  exact ⟨fun k s => rfl, fun k s => rfl, by decide⟩

/-- C10: the merchant kind's marker is the leading-underscore literal
`"_merchant"`, unlike the trailing-underscore markers of the other eight
kinds; `MerchantId::new` accepts exactly the strings starting with
`"_merchant"`, and every string starting with `"merchant_"` is
rejected. -/
theorem c10_merchant_marker_leading_underscore :
    IdKind.merchantId.pre = "_merchant".toList ∧
    (∀ s : List Char, (idNew .merchantId s).isOk = true ↔
      ("_merchant".toList).isPrefixOf s = true) ∧
    (∀ s : List Char, ("merchant_".toList).isPrefixOf s = true →
      (idNew .merchantId s).isOk = false) ∧
    [IdKind.accountId.pre, IdKind.transactionId.pre, IdKind.userId.pre,
      IdKind.transferId.pre, IdKind.paymentId.pre, IdKind.connectionId.pre,
      IdKind.categoryId.pre, IdKind.authorizationId.pre] =
      ["acc_".toList, "trans_".toList, "user_".toList, "transfer_".toList,
        "payment_".toList, "conn_".toList, "cat_".toList, "auth_".toList] := by
  refine ⟨by decide, fun s => ?_, fun s h => ?_, by decide⟩
  · exact idNew_isOk_iff .merchantId s
  · match s with
    | [] => exact absurd h (by decide)
    | c :: t =>
      have h' : (('m' == c) && ("erchant_".toList).isPrefixOf t) = true := h
      rw [Bool.and_eq_true] at h'
      have hc : 'm' = c := eq_of_beq h'.1
      have hnp : (IdKind.merchantId.pre).isPrefixOf (c :: t) = false := by
        rw [← hc]
        rfl
      simp [idNew, hnp, Except.isOk, Except.toBool]

/-- Witness for C10: `"merchant_abc"` is rejected as a merchant
identifier while `"_merchant123"` is accepted. -/
theorem c10_merchant_marker_witness :
    (idNew .merchantId "merchant_abc".toList).isOk = false ∧
    (idNew .merchantId "_merchant123".toList).isOk = true := by
  constructor
  · exact c10_merchant_marker_leading_underscore.2.2.1 "merchant_abc".toList
      (by decide)
  · exact (c10_merchant_marker_leading_underscore.2.1
      "_merchant123".toList).mpr (by decide)
